import Mathlib

/-!
Shallow embedding of the PMS2 performance-management dashboard
(src/backend_fin.py and src/frontend.py): a generic parameterized query
executor (`run_query`) with uniform error handling, plus the derived
CRUD operations and the business-insight aggregates, modelled against a
relational datastore state (tables employee / goal / task / feedback).

The datastore client (psycopg2 connection + cursor) is modelled as a
connection object carrying the committed database state together with a
fault profile saying which client calls raise; Python exceptions are
modelled explicitly, so that the try/except/finally control flow of
`run_query` (including the `finally: cursor.close()` on every path, and
the fact that a raise inside `finally` supersedes a pending return or
in-flight exception) is reproduced faithfully.
-/

/-- A SQL / Python value as it appears in result rows: integers, strings,
booleans, SQL NULL (Python `None`), and exact numerics (Postgres `AVG`). -/
inductive SqlVal where
  | vint (n : Int)
  | vstr (s : String)
  | vbool (b : Bool)
  | vnull
  | vrat (q : Rat)
deriving DecidableEq

/-- `pandas.DataFrame(data, columns=cols)`: a list of column names and a
list of rows (each row a tuple of values), kept in construction order. -/
structure DataFrame where
  columns : List String
  rows : List (List SqlVal)
deriving DecidableEq

/-- `pd.DataFrame()` — the empty frame returned on a null connection. -/
def DataFrame.empty0 : DataFrame := ⟨[], []⟩

/-- pandas `df.empty`: true iff an axis has length 0. -/
def DataFrame.pdEmpty (d : DataFrame) : Bool := d.rows.isEmpty || d.columns.isEmpty

/-- A Python value returned by `run_query`: a DataFrame or a bool. -/
inductive PyVal where
  | df (d : DataFrame)
  | pybool (b : Bool)
deriving DecidableEq

/-- The observable outcome of a Python call: a returned value, or a
propagated exception (identified by its message). -/
inductive RunOutcome where
  | ret (v : PyVal)
  | raised (msg : String)
deriving DecidableEq

/-- pandas `df.iloc[0, 0]` lifted to a `PyVal`: AttributeError on a bool,
IndexError on an empty frame. -/
def PyVal.iloc00 : PyVal → Except String SqlVal
  | .df d =>
    match d.rows with
    | [] => .error "IndexError"
    | r :: _ =>
      match r with
      | [] => .error "IndexError"
      | v :: _ => .ok v
  | .pybool _ => .error "AttributeError: object has no attribute iloc"

/-- Python `result.empty` lifted to a `PyVal` (AttributeError on a bool). -/
def PyVal.pdEmptyAttr : PyVal → Except String Bool
  | .df d => .ok d.pdEmpty
  | .pybool _ => .error "AttributeError: object has no attribute empty"

/-! ## The relational datastore state -/

structure EmployeeRow where
  employee_id : Int
  name : String
deriving DecidableEq

structure GoalRow where
  goal_id : Int
  employee_id : Int
  manager_id : Int
  description : String
  due_date : String
  status : String
deriving DecidableEq

structure TaskRow where
  task_id : Int
  goal_id : Int
  description : String
  is_approved : Bool
deriving DecidableEq

structure FeedbackRow where
  feedback_id : Int
  goal_id : Int
  manager_id : Int
  content : String
  timestamp : Int
deriving DecidableEq

/-- The external relational store: the five tables of the schema (employee,
goal, task, feedback; the fifth "table" of the spec is the implicit FK
structure), plus a server clock used for the server-assigned feedback
timestamp and the serial id counters. Row order is datastore order. -/
structure DB where
  employees : List EmployeeRow
  goals : List GoalRow
  tasks : List TaskRow
  feedbacks : List FeedbackRow
  clock : Int
deriving DecidableEq

/-- Next serial id: one past the maximum id in use. -/
def nextId (ids : List Int) : Int := ids.foldr max 0 + 1

/-! ## The fixed SQL templates

The application issues only fixed templates. Backend and frontend build
textually identical SQL except for (a) indentation inside triple-quoted
strings and (b) the average-goals query, where only the frontend wraps the
aggregate in `COALESCE(..., 0)`. The engine recognises both spellings of
each whitespace-variant template, since SQL is whitespace-insensitive. -/

def q_create_goal : String :=
  "INSERT INTO goal (employee_id, manager_id, description, due_date, status) VALUES (%s, %s, %s, %s, %s);"

def q_create_task : String :=
  "INSERT INTO task (goal_id, description) VALUES (%s, %s);"

def q_create_feedback : String :=
  "INSERT INTO feedback (goal_id, manager_id, content) VALUES (%s, %s, %s);"

def q_get_goals_base : String :=
  "SELECT g.goal_id, g.description, g.due_date, g.status, e.name as employee_name FROM goal g JOIN employee e ON g.employee_id = e.employee_id"

def q_get_goals_filter : String := " WHERE g.employee_id = %s"

def q_get_tasks : String :=
  "SELECT task_id, description, is_approved FROM task WHERE goal_id = %s;"

/-- Triple-quoted feedback query as written in backend_fin.py (12-space indent). -/
def q_get_feedback_b : String :=
  "\n            SELECT f.content, f.timestamp, g.description as goal_description\n            FROM feedback f\n            JOIN goal g ON f.goal_id = g.goal_id\n            WHERE g.employee_id = %s;\n        "

/-- Triple-quoted feedback query as written in frontend.py (8-space indent). -/
def q_get_feedback_f : String :=
  "\n        SELECT f.content, f.timestamp, g.description as goal_description\n        FROM feedback f\n        JOIN goal g ON f.goal_id = g.goal_id\n        WHERE g.employee_id = %s;\n    "

def q_update_goal_status : String :=
  "UPDATE goal SET status = %s WHERE goal_id = %s;"

def q_approve_task : String :=
  "UPDATE task SET is_approved = TRUE WHERE task_id = %s;"

def q_delete_goal : String :=
  "DELETE FROM goal WHERE goal_id = %s;"

def q_goal_status : String :=
  "SELECT status, COUNT(*) as total_goals FROM goal GROUP BY status;"

/-- backend_fin.py query2: plain AVG — yields SQL NULL on an empty store. -/
def q_avg_goals_b : String :=
  "SELECT AVG(goal_count) FROM (SELECT COUNT(*) AS goal_count FROM goal GROUP BY employee_id) as subquery;"

/-- frontend.py query2: AVG wrapped in COALESCE(..., 0). -/
def q_avg_goals_f : String :=
  "SELECT COALESCE(AVG(goal_count), 0) FROM (SELECT COUNT(*) AS goal_count FROM goal GROUP BY employee_id) as subquery;"

def q_top_tasks_b : String :=
  "\n            SELECT e.name, COUNT(t.task_id) as total_tasks\n            FROM task t JOIN goal g ON t.goal_id = g.goal_id\n            JOIN employee e ON g.employee_id = e.employee_id\n            GROUP BY e.name ORDER BY total_tasks DESC LIMIT 1;\n        "

def q_top_tasks_f : String :=
  "\n        SELECT e.name, COUNT(t.task_id) as total_tasks\n        FROM task t JOIN goal g ON t.goal_id = g.goal_id\n        JOIN employee e ON g.employee_id = e.employee_id\n        GROUP BY e.name ORDER BY total_tasks DESC LIMIT 1;\n    "

def q_top_feedback_b : String :=
  "\n            SELECT e.name, COUNT(f.feedback_id) as total_feedback\n            FROM feedback f JOIN goal g ON f.goal_id = g.goal_id\n            JOIN employee e ON g.employee_id = e.employee_id\n            GROUP BY e.name ORDER BY total_feedback DESC LIMIT 1;\n        "

def q_top_feedback_f : String :=
  "\n        SELECT e.name, COUNT(f.feedback_id) as total_feedback\n        FROM feedback f JOIN goal g ON f.goal_id = g.goal_id\n        JOIN employee e ON g.employee_id = e.employee_id\n        GROUP BY e.name ORDER BY total_feedback DESC LIMIT 1;\n    "

/-- The statements the datastore recognises. Anything else is a syntax
error at execution time. -/
inductive QueryKind where
  | insertGoal
  | insertTask
  | insertFeedback
  | selectGoalsAll
  | selectGoalsByEmployee
  | selectTasks
  | selectFeedback
  | goalStatusCounts
  | avgGoalsPlain
  | avgGoalsCoalesce
  | topByTasks
  | topByFeedback
  | updateGoalStatus
  | approveTask
  | deleteGoal
deriving DecidableEq

/-- Statement recognition: maps each fixed template (either module's
spelling) to its kind; an unknown string is a malformed statement. -/
def parseQuery (q : String) : Option QueryKind :=
  if q = q_create_goal then some .insertGoal
  else if q = q_create_task then some .insertTask
  else if q = q_create_feedback then some .insertFeedback
  else if q = q_get_goals_base then some .selectGoalsAll
  else if q = q_get_goals_base ++ q_get_goals_filter then some .selectGoalsByEmployee
  else if q = q_get_tasks then some .selectTasks
  else if q = q_get_feedback_b ∨ q = q_get_feedback_f then some .selectFeedback
  else if q = q_goal_status then some .goalStatusCounts
  else if q = q_avg_goals_b then some .avgGoalsPlain
  else if q = q_avg_goals_f then some .avgGoalsCoalesce
  else if q = q_top_tasks_b ∨ q = q_top_tasks_f then some .topByTasks
  else if q = q_top_feedback_b ∨ q = q_top_feedback_f then some .topByFeedback
  else if q = q_update_goal_status then some .updateGoalStatus
  else if q = q_approve_task then some .approveTask
  else if q = q_delete_goal then some .deleteGoal
  else none

/-! ## Query semantics against the datastore state

Result order models the datastore-returned order: nested-loop order for
joins, first-occurrence order for GROUP BY groups (Postgres leaves both
unspecified; the model fixes one deterministic choice). -/

/-- Distinct elements in first-occurrence order (GROUP BY group order). -/
def dedupFirst {α : Type} [BEq α] : List α → List α
  | [] => []
  | x :: xs => x :: (dedupFirst xs).filter (fun y => !(y == x))

def goalCols : List String := ["goal_id", "description", "due_date", "status", "employee_name"]

def taskCols : List String := ["task_id", "description", "is_approved"]

def feedbackCols : List String := ["content", "timestamp", "goal_description"]

def goalJoinRow (g : GoalRow) (e : EmployeeRow) : List SqlVal :=
  [.vint g.goal_id, .vstr g.description, .vstr g.due_date, .vstr g.status, .vstr e.name]

/-- `goal JOIN employee` without filter. -/
def goalJoinRows (db : DB) : List (List SqlVal) :=
  db.goals.flatMap fun g =>
    (db.employees.filter fun e => e.employee_id == g.employee_id).map (goalJoinRow g)

/-- `goal JOIN employee WHERE g.employee_id = eid`. -/
def goalJoinRowsFor (db : DB) (eid : Int) : List (List SqlVal) :=
  (db.goals.filter fun g => g.employee_id == eid).flatMap fun g =>
    (db.employees.filter fun e => e.employee_id == g.employee_id).map (goalJoinRow g)

/-- `SELECT task_id, description, is_approved FROM task WHERE goal_id = gid`. -/
def taskRowsFor (db : DB) (gid : Int) : List (List SqlVal) :=
  (db.tasks.filter fun t => t.goal_id == gid).map fun t =>
    [.vint t.task_id, .vstr t.description, .vbool t.is_approved]

/-- `feedback JOIN goal WHERE g.employee_id = eid`. -/
def feedbackRowsFor (db : DB) (eid : Int) : List (List SqlVal) :=
  db.feedbacks.flatMap fun f =>
    (db.goals.filter fun g => g.goal_id == f.goal_id && g.employee_id == eid).map fun g =>
      [.vstr f.content, .vint f.timestamp, .vstr g.description]

/-- `SELECT status, COUNT(*) FROM goal GROUP BY status`. -/
def goalStatusRows (db : DB) : List (List SqlVal) :=
  (dedupFirst (db.goals.map fun g => g.status)).map fun s =>
    [.vstr s, .vint ((db.goals.map fun g => g.status).count s : Nat)]

/-- `AVG(goal_count)` over per-employee goal counts: SQL NULL when the goal
table is empty (the aggregate ranges over zero groups), the exact rational
average otherwise. The sum of the per-group counts is the total row count. -/
def avgGoalsVal (db : DB) : SqlVal :=
  let groups := dedupFirst (db.goals.map fun g => g.employee_id)
  if groups.isEmpty then .vnull
  else .vrat ((db.goals.length : Rat) / (groups.length : Rat))

/-- `COALESCE(AVG(goal_count), 0)`: replaces the NULL of the empty store by 0. -/
def coalesceAvgGoalsVal (db : DB) : SqlVal :=
  match avgGoalsVal db with
  | .vnull => .vrat 0
  | v => v

/-- Employee names of the `task JOIN goal JOIN employee` join, one
occurrence per task row, in nested-loop order. -/
def taskEmployeeNames (db : DB) : List String :=
  db.tasks.flatMap fun t =>
    (db.goals.filter fun g => g.goal_id == t.goal_id).flatMap fun g =>
      (db.employees.filter fun e => e.employee_id == g.employee_id).map fun e => e.name

/-- Employee names of the `feedback JOIN goal JOIN employee` join. -/
def feedbackEmployeeNames (db : DB) : List String :=
  db.feedbacks.flatMap fun f =>
    (db.goals.filter fun g => g.goal_id == f.goal_id).flatMap fun g =>
      (db.employees.filter fun e => e.employee_id == g.employee_id).map fun e => e.name

/-- The group (name, count) with the greatest count, `none` when there are
no groups (ties broken by group order, which Postgres leaves unspecified;
the model picks the first). -/
def bestGroup (names : List String) : Option (String × Nat) :=
  (dedupFirst names).foldl
    (fun best s =>
      match best with
      | none => some (s, names.count s)
      | some (bs, bc) =>
        if names.count s > bc then some (s, names.count s) else some (bs, bc))
    none

/-- `GROUP BY name ORDER BY count DESC LIMIT 1`: zero rows when the join is
empty, else the single group with the greatest count. -/
def argmaxCount (names : List String) : List (List SqlVal) :=
  match bestGroup names with
  | none => []
  | some (s, c) => [[.vstr s, .vint (c : Nat)]]

/-- Result of one statement execution: an error message, or the mutated
(uncommitted) database state together with, for a SELECT, the cursor
description (column names) and the fetched rows. For a non-SELECT the
description is `none` (psycopg2's `cursor.description is None`). -/
abbrev ExecResult := Except String (DB × Option (List String × List (List SqlVal)))

def execKind (k : QueryKind) (db : DB) (params : List SqlVal) : ExecResult :=
  match k, params with
  | .insertGoal, [.vint e, .vint m, .vstr d, .vstr dd, .vstr s] =>
    if db.employees.any (fun r => r.employee_id == e) then
      .ok ({ db with goals := db.goals ++ [⟨nextId (db.goals.map fun r => r.goal_id), e, m, d, dd, s⟩] }, none)
    else .error "ForeignKeyViolation: goal.employee_id"
  | .insertTask, [.vint g, .vstr d] =>
    if db.goals.any (fun r => r.goal_id == g) then
      .ok ({ db with tasks := db.tasks ++ [⟨nextId (db.tasks.map fun r => r.task_id), g, d, false⟩] }, none)
    else .error "ForeignKeyViolation: task.goal_id"
  | .insertFeedback, [.vint g, .vint m, .vstr c] =>
    if db.goals.any (fun r => r.goal_id == g) then
      .ok ({ db with
             feedbacks := db.feedbacks ++ [⟨nextId (db.feedbacks.map fun r => r.feedback_id), g, m, c, db.clock⟩]
             clock := db.clock + 1 }, none)
    else .error "ForeignKeyViolation: feedback.goal_id"
  | .selectGoalsAll, [] => .ok (db, some (goalCols, goalJoinRows db))
  | .selectGoalsByEmployee, [.vint e] => .ok (db, some (goalCols, goalJoinRowsFor db e))
  | .selectTasks, [.vint g] => .ok (db, some (taskCols, taskRowsFor db g))
  | .selectFeedback, [.vint e] => .ok (db, some (feedbackCols, feedbackRowsFor db e))
  | .goalStatusCounts, [] => .ok (db, some (["status", "total_goals"], goalStatusRows db))
  | .avgGoalsPlain, [] => .ok (db, some (["avg"], [[avgGoalsVal db]]))
  | .avgGoalsCoalesce, [] => .ok (db, some (["coalesce"], [[coalesceAvgGoalsVal db]]))
  | .topByTasks, [] => .ok (db, some (["name", "total_tasks"], argmaxCount (taskEmployeeNames db)))
  | .topByFeedback, [] => .ok (db, some (["name", "total_feedback"], argmaxCount (feedbackEmployeeNames db)))
  | .updateGoalStatus, [.vstr s, .vint g] =>
    .ok ({ db with goals := db.goals.map fun r => if r.goal_id == g then { r with status := s } else r }, none)
  | .approveTask, [.vint t] =>
    .ok ({ db with tasks := db.tasks.map fun r => if r.task_id == t then { r with is_approved := true } else r }, none)
  | .deleteGoal, [.vint g] =>
    -- no cascade rules in-app: a referenced goal cannot be deleted
    if db.goals.any (fun r => r.goal_id == g) &&
       (db.tasks.any (fun r => r.goal_id == g) || db.feedbacks.any (fun r => r.goal_id == g)) then
      .error "ForeignKeyViolation: goal is referenced"
    else .ok ({ db with goals := db.goals.filter fun r => !(r.goal_id == g) }, none)
  | _, _ => .error "DataError: parameter type or arity mismatch"

/-- `cursor.execute(query, params)` against state `db`. -/
def sqlExec (db : DB) (query : String) (params : List SqlVal) : ExecResult :=
  match parseQuery query with
  | none => .error "SyntaxError: malformed statement"
  | some k => execKind k db params

/-! ## The connection and its fault profile

`get_db_connection()` (identical in both modules) either yields a cached
connection or `None`. A live connection carries the committed database
state and a fault profile saying which client calls raise: `cursor()`,
`execute` (connectivity loss mid-statement), `commit`, `rollback`,
`cursor.close()`. The executor opens one implicit transaction per call
and always either commits or rolls it back within the call, so the
connection only ever carries the committed state between calls. -/

structure Faults where
  cursorFails : Bool
  executeFails : Bool
  commitFails : Bool
  rollbackFails : Bool
  closeFails : Bool
deriving DecidableEq

/-- A fully healthy client: no call raises. -/
def Faults.clear : Faults := ⟨false, false, false, false, false⟩

structure Conn where
  db : DB
  faults : Faults
deriving DecidableEq

/-- The `except Exception` handler followed by the `finally` block, as both
modules write it: `conn.rollback(); st.error(...); return False` with
`finally: cursor.close()`. A raise inside `finally` supersedes both the
pending `return False` and any exception raised by `rollback()`; note the
handler returns `False` whatever the fetch flag says. -/
def handlerOutcome (f : Faults) : RunOutcome :=
  if f.closeFails then .raised "InterfaceError: cursor close failed"
  else if f.rollbackFails then .raised "InterfaceError: rollback failed"
  else .ret (.pybool false)

/-! ## backend_fin.py -/

/-- `PMSBackend.__init__`: holds the (possibly null) cached connection. -/
structure PMSBackend where
  conn : Option Conn
deriving DecidableEq

/-- `PMSBackend.run_query(query, params, fetch)` — returns the Python
outcome together with the post-call object (whose connection reflects any
committed write). Control flow mirrors src/backend_fin.py lines 26-48:
null-connection guard, `try` with `cursor()/execute`, fetch branch building
`pd.DataFrame(data, columns=cols)` from the cursor description, write
branch `conn.commit(); return True`, `except` branch `conn.rollback();
return False`, and `finally: cursor.close()`. When `cursor()` itself
raises, the local `cursor` is never bound, so the `finally` block raises
UnboundLocalError and that exception propagates to the caller. -/
def PMSBackend.run_query (self : PMSBackend) (query : String) (params : List SqlVal)
    (fetch : Bool) : RunOutcome × PMSBackend :=
  match self.conn with
  | none => (.ret (if fetch then .df DataFrame.empty0 else .pybool false), self)
  | some c =>
    if c.faults.cursorFails then
      (.raised "UnboundLocalError: local variable cursor referenced before assignment", self)
    else
      match (if c.faults.executeFails then .error "OperationalError: connection lost"
             else sqlExec c.db query params : ExecResult) with
      | .error _ => (handlerOutcome c.faults, self)
      | .ok (db2, res) =>
        if fetch then
          match res with
          | some (cols, rows) =>
            if c.faults.closeFails then (.raised "InterfaceError: cursor close failed", self)
            else (.ret (.df ⟨cols, rows⟩), self)
          | none =>
            -- non-SELECT in fetch mode: `cursor.description` is None and the
            -- column comprehension raises TypeError inside the try block
            (handlerOutcome c.faults, self)
        else
          if c.faults.commitFails then (handlerOutcome c.faults, self)
          else
            let self2 : PMSBackend := ⟨some { c with db := db2 }⟩
            if c.faults.closeFails then (.raised "InterfaceError: cursor close failed", self2)
            else (.ret (.pybool true), self2)

/-- Python truthiness of the optional `employee_id` argument: `None` and
`0` are falsy, every other integer truthy. -/
def pyTruthyInt : Option Int → Bool
  | none => false
  | some n => !(n == 0)

def PMSBackend.create_goal (self : PMSBackend) (employee_id manager_id : Int)
    (description due_date status : String) : RunOutcome × PMSBackend :=
  self.run_query q_create_goal
    [.vint employee_id, .vint manager_id, .vstr description, .vstr due_date, .vstr status] false

def PMSBackend.create_task (self : PMSBackend) (goal_id : Int) (description : String) :
    RunOutcome × PMSBackend :=
  self.run_query q_create_task [.vint goal_id, .vstr description] false

def PMSBackend.create_feedback (self : PMSBackend) (goal_id manager_id : Int)
    (content : String) : RunOutcome × PMSBackend :=
  self.run_query q_create_feedback [.vint goal_id, .vint manager_id, .vstr content] false

/-- `get_goals(employee_id=None)`: appends the WHERE clause only when
`employee_id` is truthy (src/backend_fin.py lines 64-69). -/
def PMSBackend.get_goals (self : PMSBackend) (employee_id : Option Int) :
    RunOutcome × PMSBackend :=
  let query := q_get_goals_base
  if pyTruthyInt employee_id then
    self.run_query (query ++ q_get_goals_filter) [.vint (employee_id.getD 0)] true
  else
    self.run_query query [] true

def PMSBackend.get_tasks (self : PMSBackend) (goal_id : Int) : RunOutcome × PMSBackend :=
  self.run_query q_get_tasks [.vint goal_id] true

def PMSBackend.get_feedback (self : PMSBackend) (employee_id : Int) :
    RunOutcome × PMSBackend :=
  self.run_query q_get_feedback_b [.vint employee_id] true

def PMSBackend.update_goal_status (self : PMSBackend) (goal_id : Int) (new_status : String) :
    RunOutcome × PMSBackend :=
  self.run_query q_update_goal_status [.vstr new_status, .vint goal_id] false

def PMSBackend.approve_task (self : PMSBackend) (task_id : Int) : RunOutcome × PMSBackend :=
  self.run_query q_approve_task [.vint task_id] false

def PMSBackend.delete_goal (self : PMSBackend) (goal_id : Int) : RunOutcome × PMSBackend :=
  self.run_query q_delete_goal [.vint goal_id] false

/-- Lift a call outcome into exception-propagating sequencing: a returned
value continues the caller, a raised exception propagates through it. -/
def RunOutcome.toExcept : RunOutcome → Except String PyVal
  | .ret v => .ok v
  | .raised msg => .error msg

/-- The four dashboard metrics gathered by `get_business_insights`. The
`goal_status` entry stores the raw executor result (a DataFrame, or the
bool `False` sentinel on a swallowed failure); the other three entries are
the scalar picked by `.iloc[0, 0]` or the hardcoded default (`0`, "N/A"). -/
structure Insights where
  goal_status : PyVal
  avg_goals_per_employee : SqlVal
  most_productive_employee : SqlVal
  most_feedback_employee : SqlVal
deriving DecidableEq

/-- `PMSBackend.get_business_insights` (src/backend_fin.py lines 99-129).
The average insight evaluates the conditional expression the way Python
does: the condition `not self.run_query(query2).empty` first (one executor
call), then on the true branch `self.run_query(query2).iloc[0, 0]` as a
second, independent call. The backend uses the plain-AVG query2, so an
empty goal table makes `.iloc[0, 0]` pick up SQL NULL (Python None). -/
def PMSBackend.get_business_insights (self : PMSBackend) : Except String Insights := do
  let goal_status ← (self.run_query q_goal_status [] true).1.toExcept
  let condRes ← (self.run_query q_avg_goals_b [] true).1.toExcept
  let condEmpty ← condRes.pdEmptyAttr
  let avg ←
    if !condEmpty then do
      let valRes ← (self.run_query q_avg_goals_b [] true).1.toExcept
      valRes.iloc00
    else pure (SqlVal.vint 0)
  let df_tasks ← (self.run_query q_top_tasks_b [] true).1.toExcept
  let tasksEmpty ← df_tasks.pdEmptyAttr
  let most_productive ← if !tasksEmpty then df_tasks.iloc00 else pure (SqlVal.vstr "N/A")
  let df_feedback ← (self.run_query q_top_feedback_b [] true).1.toExcept
  let feedbackEmpty ← df_feedback.pdEmptyAttr
  let most_feedback ← if !feedbackEmpty then df_feedback.iloc00 else pure (SqlVal.vstr "N/A")
  return ⟨goal_status, avg, most_productive, most_feedback⟩

/-! ## frontend.py — the module-level near-duplicate

The frontend's data-access functions are module-level and fetch the cached
connection from `get_db_connection()` on each call; the cached handle is
passed in as `conn?`. The bodies mirror src/frontend.py lines 24-122. -/

namespace Frontend

/-- `run_query(query, params, fetch)` of src/frontend.py lines 24-45:
same control flow as the backend method, returning the outcome and the
post-call connection. -/
def run_query (conn? : Option Conn) (query : String) (params : List SqlVal)
    (fetch : Bool) : RunOutcome × Option Conn :=
  match conn? with
  | none => (.ret (if fetch then .df DataFrame.empty0 else .pybool false), none)
  | some c =>
    if c.faults.cursorFails then
      (.raised "UnboundLocalError: local variable cursor referenced before assignment", some c)
    else
      match (if c.faults.executeFails then .error "OperationalError: connection lost"
             else sqlExec c.db query params : ExecResult) with
      | .error _ => (handlerOutcome c.faults, some c)
      | .ok (db2, res) =>
        if fetch then
          match res with
          | some (cols, rows) =>
            if c.faults.closeFails then (.raised "InterfaceError: cursor close failed", some c)
            else (.ret (.df ⟨cols, rows⟩), some c)
          | none => (handlerOutcome c.faults, some c)
        else
          if c.faults.commitFails then (handlerOutcome c.faults, some c)
          else
            let c2 : Conn := { c with db := db2 }
            if c.faults.closeFails then (.raised "InterfaceError: cursor close failed", some c2)
            else (.ret (.pybool true), some c2)

def get_goals (conn? : Option Conn) (employee_id : Option Int) : RunOutcome × Option Conn :=
  let query := q_get_goals_base
  if pyTruthyInt employee_id then
    run_query conn? (query ++ q_get_goals_filter) [.vint (employee_id.getD 0)] true
  else
    run_query conn? query [] true

def get_tasks (conn? : Option Conn) (goal_id : Int) : RunOutcome × Option Conn :=
  run_query conn? q_get_tasks [.vint goal_id] true

def get_feedback (conn? : Option Conn) (employee_id : Int) : RunOutcome × Option Conn :=
  run_query conn? q_get_feedback_f [.vint employee_id] true

def create_goal (conn? : Option Conn) (employee_id manager_id : Int)
    (description due_date status : String) : RunOutcome × Option Conn :=
  run_query conn? q_create_goal
    [.vint employee_id, .vint manager_id, .vstr description, .vstr due_date, .vstr status] false

def create_task (conn? : Option Conn) (goal_id : Int) (description : String) :
    RunOutcome × Option Conn :=
  run_query conn? q_create_task [.vint goal_id, .vstr description] false

def create_feedback (conn? : Option Conn) (goal_id manager_id : Int) (content : String) :
    RunOutcome × Option Conn :=
  run_query conn? q_create_feedback [.vint goal_id, .vint manager_id, .vstr content] false

def update_goal_status (conn? : Option Conn) (goal_id : Int) (new_status : String) :
    RunOutcome × Option Conn :=
  run_query conn? q_update_goal_status [.vstr new_status, .vint goal_id] false

def approve_task (conn? : Option Conn) (task_id : Int) : RunOutcome × Option Conn :=
  run_query conn? q_approve_task [.vint task_id] false

def delete_goal (conn? : Option Conn) (goal_id : Int) : RunOutcome × Option Conn :=
  run_query conn? q_delete_goal [.vint goal_id] false

/-- `get_business_insights` of src/frontend.py lines 91-122: unlike the
backend it issues the COALESCE-wrapped query2 exactly once, reusing the
result for both the emptiness test and `.iloc[0, 0]`. -/
def get_business_insights (conn? : Option Conn) : Except String Insights := do
  let goal_status ← (run_query conn? q_goal_status [] true).1.toExcept
  let result ← (run_query conn? q_avg_goals_f [] true).1.toExcept
  let resEmpty ← result.pdEmptyAttr
  let avg ← if !resEmpty then result.iloc00 else pure (SqlVal.vint 0)
  let df_tasks ← (run_query conn? q_top_tasks_f [] true).1.toExcept
  let tasksEmpty ← df_tasks.pdEmptyAttr
  let most_productive ← if !tasksEmpty then df_tasks.iloc00 else pure (SqlVal.vstr "N/A")
  let df_feedback ← (run_query conn? q_top_feedback_f [] true).1.toExcept
  let feedbackEmpty ← df_feedback.pdEmptyAttr
  let most_feedback ← if !feedbackEmpty then df_feedback.iloc00 else pure (SqlVal.vstr "N/A")
  return ⟨goal_status, avg, most_productive, most_feedback⟩

end Frontend

/-! ## The write operations as a single family (for stating the
constraint-violation and one-directionality properties uniformly) -/

/-- One call to any of the six derived write operations. -/
inductive WriteOp where
  | createGoal (employee_id manager_id : Int) (description due_date status : String)
  | createTask (goal_id : Int) (description : String)
  | createFeedback (goal_id manager_id : Int) (content : String)
  | updateGoalStatus (goal_id : Int) (new_status : String)
  | approveTask (task_id : Int)
  | deleteGoal (goal_id : Int)

/-- Dispatch a write call to the backend method it names. -/
def applyWrite (op : WriteOp) (be : PMSBackend) : RunOutcome × PMSBackend :=
  match op with
  | .createGoal e m d dd s => be.create_goal e m d dd s
  | .createTask g d => be.create_task g d
  | .createFeedback g m c => be.create_feedback g m c
  | .updateGoalStatus g s => be.update_goal_status g s
  | .approveTask t => be.approve_task t
  | .deleteGoal g => be.delete_goal g

/-- Whether the statement issued by the write call violates a referential
constraint of the schema on state `db` (inserts referencing a missing
parent row; deleting a goal that task or feedback rows still reference).
The two UPDATE statements cannot violate a constraint. -/
def violatesConstraint (op : WriteOp) (db : DB) : Bool :=
  match op with
  | .createGoal e _ _ _ _ => !(db.employees.any fun r => r.employee_id == e)
  | .createTask g _ => !(db.goals.any fun r => r.goal_id == g)
  | .createFeedback g _ _ => !(db.goals.any fun r => r.goal_id == g)
  | .updateGoalStatus _ _ => false
  | .approveTask _ => false
  | .deleteGoal g =>
    db.goals.any (fun r => r.goal_id == g) &&
      (db.tasks.any (fun r => r.goal_id == g) || db.feedbacks.any (fun r => r.goal_id == g))

/-! ## Template recognition and statement-semantics lemmas -/

set_option maxRecDepth 8192

theorem parse_create_goal : parseQuery q_create_goal = some .insertGoal := rfl

theorem parse_create_task : parseQuery q_create_task = some .insertTask := rfl

theorem parse_create_feedback : parseQuery q_create_feedback = some .insertFeedback := rfl

theorem parse_get_goals_base : parseQuery q_get_goals_base = some .selectGoalsAll := rfl

theorem parse_get_goals_filtered :
    parseQuery (q_get_goals_base ++ q_get_goals_filter) = some .selectGoalsByEmployee := rfl

theorem parse_get_tasks : parseQuery q_get_tasks = some .selectTasks := rfl

theorem parse_get_feedback_b : parseQuery q_get_feedback_b = some .selectFeedback := rfl

theorem parse_get_feedback_f : parseQuery q_get_feedback_f = some .selectFeedback := rfl

theorem parse_goal_status : parseQuery q_goal_status = some .goalStatusCounts := rfl

theorem parse_avg_goals_b : parseQuery q_avg_goals_b = some .avgGoalsPlain := rfl

theorem parse_avg_goals_f : parseQuery q_avg_goals_f = some .avgGoalsCoalesce := rfl

theorem parse_top_tasks_b : parseQuery q_top_tasks_b = some .topByTasks := rfl

theorem parse_top_tasks_f : parseQuery q_top_tasks_f = some .topByTasks := rfl

theorem parse_top_feedback_b : parseQuery q_top_feedback_b = some .topByFeedback := rfl

theorem parse_top_feedback_f : parseQuery q_top_feedback_f = some .topByFeedback := rfl

theorem parse_update_goal_status : parseQuery q_update_goal_status = some .updateGoalStatus := rfl

theorem parse_approve_task : parseQuery q_approve_task = some .approveTask := rfl

theorem parse_delete_goal : parseQuery q_delete_goal = some .deleteGoal := rfl

/-! ## Executor path lemmas (healthy client) -/

/-- On a healthy client, a statement that executes with a result set is
returned verbatim as a DataFrame, connection state untouched. -/
theorem PMSBackend.run_query_fetch_ok (c : Conn) (q : String) (p : List SqlVal)
    (db2 : DB) (cols : List String) (rows : List (List SqlVal))
    (hF : c.faults = Faults.clear)
    (hE : sqlExec c.db q p = .ok (db2, some (cols, rows))) :
    PMSBackend.run_query ⟨some c⟩ q p true = (.ret (.df ⟨cols, rows⟩), ⟨some c⟩) := by
  simp [PMSBackend.run_query, hF, Faults.clear, hE]

/-- On a healthy client, a write statement that executes commits and
returns `True`, with the committed state installed on the connection. -/
theorem PMSBackend.run_query_write_ok (c : Conn) (q : String) (p : List SqlVal)
    (db2 : DB) (res : Option (List String × List (List SqlVal)))
    (hF : c.faults = Faults.clear)
    (hE : sqlExec c.db q p = .ok (db2, res)) :
    PMSBackend.run_query ⟨some c⟩ q p false = (.ret (.pybool true), ⟨some ⟨db2, c.faults⟩⟩) := by
  simp [PMSBackend.run_query, hF, Faults.clear, hE]

/-- On a healthy client, a failing statement takes the except branch:
rollback, `return False` (whatever the mode), state untouched. -/
theorem PMSBackend.run_query_sql_error (c : Conn) (q : String) (p : List SqlVal)
    (msg : String) (f : Bool) (hF : c.faults = Faults.clear)
    (hE : sqlExec c.db q p = .error msg) :
    PMSBackend.run_query ⟨some c⟩ q p f = (.ret (.pybool false), ⟨some c⟩) := by
  simp [PMSBackend.run_query, hF, Faults.clear, hE, handlerOutcome]

/-- The two modules' executors are the duplicated same code: same outcome
and same post-call connection, for every connection state, template,
parameter list and mode. -/
theorem run_query_agree (conn? : Option Conn) (q : String) (p : List SqlVal) (f : Bool) :
    PMSBackend.run_query ⟨conn?⟩ q p f =
      ((Frontend.run_query conn? q p f).1, ⟨(Frontend.run_query conn? q p f).2⟩) := by
  cases conn? with
  | none => cases f <;> rfl
  | some c =>
    obtain ⟨db, fs⟩ := c
    obtain ⟨b1, b2, b3, b4, b5⟩ := fs
    simp only [PMSBackend.run_query, Frontend.run_query]
    cases b1 <;> cases b2 <;> cases b3 <;> cases b4 <;> cases b5 <;> (try rfl) <;>
      (cases hE : sqlExec db q p with
       | error e => rfl
       | ok pr =>
         obtain ⟨db2, res⟩ := pr
         cases f <;> cases res <;> rfl)

theorem frontend_run_query_fetch_ok (c : Conn) (q : String) (p : List SqlVal)
    (db2 : DB) (cols : List String) (rows : List (List SqlVal))
    (hF : c.faults = Faults.clear)
    (hE : sqlExec c.db q p = .ok (db2, some (cols, rows))) :
    Frontend.run_query (some c) q p true = (.ret (.df ⟨cols, rows⟩), some c) := by
  have h1 := run_query_agree (some c) q p true
  rw [PMSBackend.run_query_fetch_ok c q p db2 cols rows hF hE] at h1
  have h2 := congrArg Prod.fst h1
  have h3 := congrArg (fun x : RunOutcome × PMSBackend => x.2.conn) h1
  rw [Prod.ext_iff]
  exact ⟨h2.symm, h3.symm⟩

theorem frontend_run_query_write_ok (c : Conn) (q : String) (p : List SqlVal)
    (db2 : DB) (res : Option (List String × List (List SqlVal)))
    (hF : c.faults = Faults.clear)
    (hE : sqlExec c.db q p = .ok (db2, res)) :
    Frontend.run_query (some c) q p false = (.ret (.pybool true), some ⟨db2, c.faults⟩) := by
  have h1 := run_query_agree (some c) q p false
  rw [PMSBackend.run_query_write_ok c q p db2 res hF hE] at h1
  have h2 := congrArg Prod.fst h1
  have h3 := congrArg (fun x : RunOutcome × PMSBackend => x.2.conn) h1
  rw [Prod.ext_iff]
  exact ⟨h2.symm, h3.symm⟩

theorem frontend_run_query_sql_error (c : Conn) (q : String) (p : List SqlVal)
    (msg : String) (f : Bool) (hF : c.faults = Faults.clear)
    (hE : sqlExec c.db q p = .error msg) :
    Frontend.run_query (some c) q p f = (.ret (.pybool false), some c) := by
  have h1 := run_query_agree (some c) q p f
  rw [PMSBackend.run_query_sql_error c q p msg f hF hE] at h1
  have h2 := congrArg Prod.fst h1
  have h3 := congrArg (fun x : RunOutcome × PMSBackend => x.2.conn) h1
  rw [Prod.ext_iff]
  exact ⟨h2.symm, h3.symm⟩

/-! ## Concrete sample states -/

/-- A populated store: two employees, two goals, two tasks (one already
approved), one feedback row. -/
def dbSample : DB :=
  ⟨[⟨1, "Alice"⟩, ⟨2, "Bob"⟩],
   [⟨1, 1, 2, "Q1 targets", "2024-03-31", "In Progress"⟩,
    ⟨2, 2, 2, "Q2 targets", "2024-06-30", "Completed"⟩],
   [⟨1, 1, "draft report", true⟩, ⟨2, 1, "review report", false⟩],
   [⟨1, 2, 2, "good work", 0⟩], 1⟩

/-- A store with an employee but zero goals, tasks and feedback. -/
def dbEmptyStore : DB := ⟨[⟨1, "Alice"⟩], [], [], [], 0⟩

def connSample : Conn := ⟨dbSample, Faults.clear⟩

def connEmptyStore : Conn := ⟨dbEmptyStore, Faults.clear⟩

/-- Connectivity lost mid-statement: `execute` raises. -/
def connExecFail : Conn := ⟨dbSample, ⟨false, true, false, false, false⟩⟩

/-- `conn.cursor()` itself raises (e.g. connection already closed). -/
def connCursorFail : Conn := ⟨dbSample, ⟨true, false, false, false, false⟩⟩

/-- `execute` raises and the subsequent `conn.rollback()` raises too. -/
def connRollbackFail : Conn := ⟨dbSample, ⟨false, true, false, true, false⟩⟩

/-! ## Claim theorems -/

/-- C4 (confirmed): when the connection manager handed out a null handle,
`run_query` performs no datastore operation and immediately returns
`pd.DataFrame()` in fetch mode and `False` in write mode, without raising,
leaving the (absent) connection state untouched — in both modules. -/
theorem C4_null_connection_degraded_mode (query : String) (params : List SqlVal) :
    PMSBackend.run_query ⟨none⟩ query params true = (.ret (.df DataFrame.empty0), ⟨none⟩) ∧
    PMSBackend.run_query ⟨none⟩ query params false = (.ret (.pybool false), ⟨none⟩) ∧
    Frontend.run_query none query params true = (.ret (.df DataFrame.empty0), none) ∧
    Frontend.run_query none query params false = (.ret (.pybool false), none) :=
  ⟨rfl, rfl, rfl, rfl⟩

/-- C1 (code bug): the `except` branch of `run_query` executes
`return False` regardless of the fetch flag, so a statement-execution
failure in fetch mode (connectivity lost mid-statement, or malformed SQL)
returns the bool `False` — not an empty table. Every fetch-mode caller
immediately uses the result as a DataFrame (`.empty`, `.iloc`), and the
null-connection branch does return `pd.DataFrame()` in fetch mode, so the
mode-independent `False` is a slip, exhibited here. (Write-mode failure
does return `False`, the only half of the claim the code satisfies.) -/
theorem C1_fetch_mode_failure_returns_false :
    (PMSBackend.run_query ⟨some connExecFail⟩ q_get_tasks [.vint 1] true).1 = .ret (.pybool false) ∧
    (Frontend.run_query (some connExecFail) q_get_tasks [.vint 1] true).1 = .ret (.pybool false) ∧
    (PMSBackend.run_query ⟨some connSample⟩ "SELEC oops" [] true).1 = .ret (.pybool false) ∧
    (PMSBackend.run_query ⟨some connExecFail⟩ q_create_task [.vint 1, .vstr "x"] false).1 = .ret (.pybool false) ∧
    ∀ d : DataFrame, (PMSBackend.run_query ⟨some connExecFail⟩ q_get_tasks [.vint 1] true).1 ≠ .ret (.df d) := by
  refine ⟨rfl, rfl, rfl, rfl, fun d h => ?_⟩
  rw [show (PMSBackend.run_query ⟨some connExecFail⟩ q_get_tasks [.vint 1] true).1 =
        .ret (.pybool false) from rfl] at h
  exact absurd h (by simp)

/-- C2 (code bug): the executor can raise past its own boundary. When
`conn.cursor()` itself raises, the local `cursor` is never bound, so
`finally: cursor.close()` raises UnboundLocalError out of `run_query`
(in both modules); and when `conn.rollback()` raises inside the `except`
handler, that exception propagates to the caller as well. -/
theorem C2_executor_raises_past_boundary :
    (PMSBackend.run_query ⟨some connCursorFail⟩ q_get_tasks [.vint 1] true).1 =
      .raised "UnboundLocalError: local variable cursor referenced before assignment" ∧
    (Frontend.run_query (some connCursorFail) q_get_tasks [.vint 1] true).1 =
      .raised "UnboundLocalError: local variable cursor referenced before assignment" ∧
    (PMSBackend.run_query ⟨some connRollbackFail⟩ q_create_task [.vint 1, .vstr "x"] false).1 =
      .raised "InterfaceError: rollback failed" :=
  ⟨rfl, rfl, rfl⟩

/-- C3 (confirmed): a write call whose statement violates a referential
constraint returns `False` and leaves the committed datastore state
exactly as it was (the implicit transaction is rolled back); a following
read observes the pre-call state. The two UPDATE templates cannot violate
a constraint, so for them the hypothesis is vacuous; type-constraint
violations are unreachable from the typed operation signatures. -/
theorem C3_constraint_violation_rolls_back (op : WriteOp) (c : Conn)
    (hF : c.faults = Faults.clear) (hV : violatesConstraint op c.db = true) :
    applyWrite op ⟨some c⟩ = (.ret (.pybool false), ⟨some c⟩) ∧
    (applyWrite op ⟨some c⟩).2.get_goals none = PMSBackend.get_goals ⟨some c⟩ none := by
  have hmain : applyWrite op ⟨some c⟩ = (.ret (.pybool false), ⟨some c⟩) := by
    cases op with
    | createGoal e m d dd s =>
      have hA : (c.db.employees.any fun r => r.employee_id == e) = false := by
        simpa [violatesConstraint] using hV
      have hE : sqlExec c.db q_create_goal [.vint e, .vint m, .vstr d, .vstr dd, .vstr s] =
          .error "ForeignKeyViolation: goal.employee_id" := by
        unfold sqlExec
        rw [parse_create_goal]
        simp [execKind, hA]
      exact PMSBackend.run_query_sql_error c _ _ _ false hF hE
    | createTask g d =>
      have hA : (c.db.goals.any fun r => r.goal_id == g) = false := by
        simpa [violatesConstraint] using hV
      have hE : sqlExec c.db q_create_task [.vint g, .vstr d] =
          .error "ForeignKeyViolation: task.goal_id" := by
        unfold sqlExec
        rw [parse_create_task]
        simp [execKind, hA]
      exact PMSBackend.run_query_sql_error c _ _ _ false hF hE
    | createFeedback g m ct =>
      have hA : (c.db.goals.any fun r => r.goal_id == g) = false := by
        simpa [violatesConstraint] using hV
      have hE : sqlExec c.db q_create_feedback [.vint g, .vint m, .vstr ct] =
          .error "ForeignKeyViolation: feedback.goal_id" := by
        unfold sqlExec
        rw [parse_create_feedback]
        simp [execKind, hA]
      exact PMSBackend.run_query_sql_error c _ _ _ false hF hE
    | updateGoalStatus g s => simp [violatesConstraint] at hV
    | approveTask t => simp [violatesConstraint] at hV
    | deleteGoal g =>
      simp only [violatesConstraint] at hV
      have hE : sqlExec c.db q_delete_goal [.vint g] =
          .error "ForeignKeyViolation: goal is referenced" := by
        unfold sqlExec
        rw [parse_delete_goal]
        simp [execKind, hV]
      exact PMSBackend.run_query_sql_error c _ _ _ false hF hE
  exact ⟨hmain, by rw [hmain]⟩

/-- Witness for C3: inserting a task for the nonexistent goal 99 on the
populated sample store violates the FK constraint, returns `False` and
leaves the store untouched. -/
theorem C3_witness :
    violatesConstraint (.createTask 99 "x") connSample.db = true ∧
    applyWrite (.createTask 99 "x") ⟨some connSample⟩ = (.ret (.pybool false), ⟨some connSample⟩) :=
  ⟨by decide, (C3_constraint_violation_rolls_back (.createTask 99 "x") connSample rfl (by decide)).1⟩

/-! ## SELECT statement lemmas -/

theorem sqlExec_get_goals_all (db : DB) :
    sqlExec db q_get_goals_base [] = .ok (db, some (goalCols, goalJoinRows db)) := by
  unfold sqlExec
  rw [parse_get_goals_base]
  rfl

theorem sqlExec_get_goals_filtered (db : DB) (e : Int) :
    sqlExec db (q_get_goals_base ++ q_get_goals_filter) [.vint e] =
      .ok (db, some (goalCols, goalJoinRowsFor db e)) := by
  unfold sqlExec
  rw [parse_get_goals_filtered]
  rfl

theorem sqlExec_get_tasks (db : DB) (g : Int) :
    sqlExec db q_get_tasks [.vint g] = .ok (db, some (taskCols, taskRowsFor db g)) := by
  unfold sqlExec
  rw [parse_get_tasks]
  rfl

theorem sqlExec_goal_status (db : DB) :
    sqlExec db q_goal_status [] = .ok (db, some (["status", "total_goals"], goalStatusRows db)) := by
  unfold sqlExec
  rw [parse_goal_status]
  rfl

theorem sqlExec_avg_goals_b (db : DB) :
    sqlExec db q_avg_goals_b [] = .ok (db, some (["avg"], [[avgGoalsVal db]])) := by
  unfold sqlExec
  rw [parse_avg_goals_b]
  rfl

theorem sqlExec_avg_goals_f (db : DB) :
    sqlExec db q_avg_goals_f [] = .ok (db, some (["coalesce"], [[coalesceAvgGoalsVal db]])) := by
  unfold sqlExec
  rw [parse_avg_goals_f]
  rfl

theorem sqlExec_top_tasks_b (db : DB) :
    sqlExec db q_top_tasks_b [] =
      .ok (db, some (["name", "total_tasks"], argmaxCount (taskEmployeeNames db))) := by
  unfold sqlExec
  rw [parse_top_tasks_b]
  rfl

theorem sqlExec_top_tasks_f (db : DB) :
    sqlExec db q_top_tasks_f [] =
      .ok (db, some (["name", "total_tasks"], argmaxCount (taskEmployeeNames db))) := by
  unfold sqlExec
  rw [parse_top_tasks_f]
  rfl

theorem sqlExec_top_feedback_b (db : DB) :
    sqlExec db q_top_feedback_b [] =
      .ok (db, some (["name", "total_feedback"], argmaxCount (feedbackEmployeeNames db))) := by
  unfold sqlExec
  rw [parse_top_feedback_b]
  rfl

theorem sqlExec_top_feedback_f (db : DB) :
    sqlExec db q_top_feedback_f [] =
      .ok (db, some (["name", "total_feedback"], argmaxCount (feedbackEmployeeNames db))) := by
  unfold sqlExec
  rw [parse_top_feedback_f]
  rfl

/-- C10 (confirmed): `get_goals` tests the optional employee id for Python
truthiness, so `employee_id=0` (like `None`) takes the unfiltered branch
and returns the full goal list; the per-employee WHERE clause is applied
only for a nonzero id. Both modules behave identically. -/
theorem C10_falsy_employee_id_unfiltered :
    (∀ conn? : Option Conn,
       PMSBackend.get_goals ⟨conn?⟩ (some 0) = PMSBackend.get_goals ⟨conn?⟩ none ∧
       Frontend.get_goals conn? (some 0) = Frontend.get_goals conn? none) ∧
    (∀ c : Conn, c.faults = Faults.clear →
       (PMSBackend.get_goals ⟨some c⟩ (some 0)).1 = .ret (.df ⟨goalCols, goalJoinRows c.db⟩) ∧
       (Frontend.get_goals (some c) (some 0)).1 = .ret (.df ⟨goalCols, goalJoinRows c.db⟩)) ∧
    (∀ (c : Conn) (e : Int), c.faults = Faults.clear → (e == 0) = false →
       (PMSBackend.get_goals ⟨some c⟩ (some e)).1 =
         .ret (.df ⟨goalCols, goalJoinRowsFor c.db e⟩)) := by
  refine ⟨fun conn? => ⟨rfl, rfl⟩, fun c hF => ?_, fun c e hF he => ?_⟩
  · constructor
    · show (PMSBackend.run_query ⟨some c⟩ q_get_goals_base [] true).1 = _
      rw [PMSBackend.run_query_fetch_ok c q_get_goals_base [] c.db goalCols (goalJoinRows c.db)
            hF (sqlExec_get_goals_all c.db)]
    · show (Frontend.run_query (some c) q_get_goals_base [] true).1 = _
      rw [frontend_run_query_fetch_ok c q_get_goals_base [] c.db goalCols (goalJoinRows c.db)
            hF (sqlExec_get_goals_all c.db)]
  · have ht : pyTruthyInt (some e) = true := by simp [pyTruthyInt, he]
    simp only [PMSBackend.get_goals, ht, if_true, Option.getD]
    rw [PMSBackend.run_query_fetch_ok c (q_get_goals_base ++ q_get_goals_filter) [.vint e] c.db
          goalCols (goalJoinRowsFor c.db e) hF (sqlExec_get_goals_filtered c.db e)]

/-- Witness for C10: on the populated sample store, `get_goals(0)` returns
the full two-row unfiltered goal join. -/
theorem C10_witness :
    connSample.faults = Faults.clear ∧
    (PMSBackend.get_goals ⟨some connSample⟩ (some 0)).1 =
      .ret (.df ⟨goalCols, goalJoinRows connSample.db⟩) :=
  ⟨rfl, (C10_falsy_employee_id_unfiltered.2.1 connSample rfl).1⟩

/-- C7 (confirmed): a successful fetch-mode execution returns a table whose
column names are exactly the cursor metadata and whose rows are exactly the
fetched tuples in datastore order, in both modules; in particular a read
whose filter matches nothing yields zero rows under the correct column
names, never a null result. -/
theorem C7_fetch_returns_metadata_and_rows (c : Conn) (q : String) (p : List SqlVal)
    (db2 : DB) (cols : List String) (rows : List (List SqlVal))
    (hF : c.faults = Faults.clear)
    (hE : sqlExec c.db q p = .ok (db2, some (cols, rows))) :
    (PMSBackend.run_query ⟨some c⟩ q p true).1 = .ret (.df ⟨cols, rows⟩) ∧
    (Frontend.run_query (some c) q p true).1 = .ret (.df ⟨cols, rows⟩) ∧
    ∀ gid : Int, c.db.tasks.filter (fun t => t.goal_id == gid) = [] →
      (PMSBackend.get_tasks ⟨some c⟩ gid).1 = .ret (.df ⟨taskCols, []⟩) := by
  refine ⟨by rw [PMSBackend.run_query_fetch_ok c q p db2 cols rows hF hE],
          by rw [frontend_run_query_fetch_ok c q p db2 cols rows hF hE],
          fun gid hg => ?_⟩
  have hE2 : sqlExec c.db q_get_tasks [.vint gid] = .ok (c.db, some (taskCols, [])) := by
    rw [sqlExec_get_tasks]
    simp [taskRowsFor, hg]
  show (PMSBackend.run_query ⟨some c⟩ q_get_tasks [.vint gid] true).1 = _
  rw [PMSBackend.run_query_fetch_ok c q_get_tasks [.vint gid] c.db taskCols [] hF hE2]

/-- Witness for C7: fetching the tasks of goal 1 on the sample store
returns the task columns with the two matching rows, and goal 77 (no
matching tasks) returns the task columns with zero rows. -/
theorem C7_witness :
    connSample.faults = Faults.clear ∧
    (PMSBackend.run_query ⟨some connSample⟩ q_get_tasks [.vint 1] true).1 =
      .ret (.df ⟨taskCols, taskRowsFor connSample.db 1⟩) ∧
    (PMSBackend.get_tasks ⟨some connSample⟩ 77).1 = .ret (.df ⟨taskCols, []⟩) := by
  have h := C7_fetch_returns_metadata_and_rows connSample q_get_tasks [.vint 1] connSample.db
    taskCols (taskRowsFor connSample.db 1) rfl (sqlExec_get_tasks connSample.db 1)
  exact ⟨rfl, h.1, h.2.2 77 (by decide)⟩

/-! ## Evaluating `get_business_insights` on a healthy connection -/

/-- The scalar the dashboard shows for a top-employee aggregate: the name
of the best group, or the "N/A" sentinel when the aggregate has no rows. -/
def topEmployeeVal (names : List String) : SqlVal :=
  match bestGroup names with
  | none => .vstr "N/A"
  | some (s, _) => .vstr s

/-- On a healthy connection the backend's insight gathering succeeds and
produces the goal-status table, the plain (COALESCE-less) average — SQL
NULL on an empty goal table — and the two top-employee scalars. -/
theorem gbi_backend_eval (c : Conn) (hF : c.faults = Faults.clear) :
    PMSBackend.get_business_insights ⟨some c⟩ =
      .ok ⟨.df ⟨["status", "total_goals"], goalStatusRows c.db⟩,
           avgGoalsVal c.db,
           topEmployeeVal (taskEmployeeNames c.db),
           topEmployeeVal (feedbackEmployeeNames c.db)⟩ := by
  unfold PMSBackend.get_business_insights
  rw [PMSBackend.run_query_fetch_ok c q_goal_status [] c.db _ _ hF (sqlExec_goal_status c.db),
      PMSBackend.run_query_fetch_ok c q_avg_goals_b [] c.db _ _ hF (sqlExec_avg_goals_b c.db),
      PMSBackend.run_query_fetch_ok c q_top_tasks_b [] c.db _ _ hF (sqlExec_top_tasks_b c.db),
      PMSBackend.run_query_fetch_ok c q_top_feedback_b [] c.db _ _ hF (sqlExec_top_feedback_b c.db)]
  cases h1 : bestGroup (taskEmployeeNames c.db) with
  | none =>
    cases h2 : bestGroup (feedbackEmployeeNames c.db) with
    | none =>
      simp only [argmaxCount, topEmployeeVal, h1, h2]
      rfl
    | some pr =>
      obtain ⟨s2, n2⟩ := pr
      simp only [argmaxCount, topEmployeeVal, h1, h2]
      rfl
  | some pr =>
    obtain ⟨s1, n1⟩ := pr
    cases h2 : bestGroup (feedbackEmployeeNames c.db) with
    | none =>
      simp only [argmaxCount, topEmployeeVal, h1, h2]
      rfl
    | some pr2 =>
      obtain ⟨s2, n2⟩ := pr2
      simp only [argmaxCount, topEmployeeVal, h1, h2]
      rfl

/-- On a healthy connection the frontend's insight gathering succeeds and
produces the same metrics except that its average is COALESCE-wrapped. -/
theorem gbi_frontend_eval (c : Conn) (hF : c.faults = Faults.clear) :
    Frontend.get_business_insights (some c) =
      .ok ⟨.df ⟨["status", "total_goals"], goalStatusRows c.db⟩,
           coalesceAvgGoalsVal c.db,
           topEmployeeVal (taskEmployeeNames c.db),
           topEmployeeVal (feedbackEmployeeNames c.db)⟩ := by
  unfold Frontend.get_business_insights
  rw [frontend_run_query_fetch_ok c q_goal_status [] c.db _ _ hF (sqlExec_goal_status c.db),
      frontend_run_query_fetch_ok c q_avg_goals_f [] c.db _ _ hF (sqlExec_avg_goals_f c.db),
      frontend_run_query_fetch_ok c q_top_tasks_f [] c.db _ _ hF (sqlExec_top_tasks_f c.db),
      frontend_run_query_fetch_ok c q_top_feedback_f [] c.db _ _ hF (sqlExec_top_feedback_f c.db)]
  cases h1 : bestGroup (taskEmployeeNames c.db) with
  | none =>
    cases h2 : bestGroup (feedbackEmployeeNames c.db) with
    | none =>
      simp only [argmaxCount, topEmployeeVal, h1, h2]
      rfl
    | some pr =>
      obtain ⟨s2, n2⟩ := pr
      simp only [argmaxCount, topEmployeeVal, h1, h2]
      rfl
  | some pr =>
    obtain ⟨s1, n1⟩ := pr
    cases h2 : bestGroup (feedbackEmployeeNames c.db) with
    | none =>
      simp only [argmaxCount, topEmployeeVal, h1, h2]
      rfl
    | some pr2 =>
      obtain ⟨s2, n2⟩ := pr2
      simp only [argmaxCount, topEmployeeVal, h1, h2]
      rfl

/-! ## Write statement lemmas -/

theorem sqlExec_insert_goal (db : DB) (e m : Int) (d dd s : String) :
    sqlExec db q_create_goal [.vint e, .vint m, .vstr d, .vstr dd, .vstr s] =
      if db.employees.any (fun r => r.employee_id == e) then
        .ok ({ db with goals := db.goals ++ [⟨nextId (db.goals.map fun r => r.goal_id), e, m, d, dd, s⟩] }, none)
      else .error "ForeignKeyViolation: goal.employee_id" := by
  unfold sqlExec
  rw [parse_create_goal]
  rfl

theorem sqlExec_insert_task (db : DB) (g : Int) (d : String) :
    sqlExec db q_create_task [.vint g, .vstr d] =
      if db.goals.any (fun r => r.goal_id == g) then
        .ok ({ db with tasks := db.tasks ++ [⟨nextId (db.tasks.map fun r => r.task_id), g, d, false⟩] }, none)
      else .error "ForeignKeyViolation: task.goal_id" := by
  unfold sqlExec
  rw [parse_create_task]
  rfl

theorem sqlExec_insert_feedback (db : DB) (g m : Int) (ct : String) :
    sqlExec db q_create_feedback [.vint g, .vint m, .vstr ct] =
      if db.goals.any (fun r => r.goal_id == g) then
        .ok ({ db with
               feedbacks := db.feedbacks ++ [⟨nextId (db.feedbacks.map fun r => r.feedback_id), g, m, ct, db.clock⟩]
               clock := db.clock + 1 }, none)
      else .error "ForeignKeyViolation: feedback.goal_id" := by
  unfold sqlExec
  rw [parse_create_feedback]
  rfl

theorem sqlExec_update_goal_status (db : DB) (s : String) (g : Int) :
    sqlExec db q_update_goal_status [.vstr s, .vint g] =
      .ok ({ db with goals := db.goals.map fun r => if r.goal_id == g then { r with status := s } else r }, none) := by
  unfold sqlExec
  rw [parse_update_goal_status]
  rfl

theorem sqlExec_approve_task (db : DB) (t : Int) :
    sqlExec db q_approve_task [.vint t] =
      .ok ({ db with tasks := db.tasks.map fun r => if r.task_id == t then { r with is_approved := true } else r }, none) := by
  unfold sqlExec
  rw [parse_approve_task]
  rfl

theorem sqlExec_delete_goal (db : DB) (g : Int) :
    sqlExec db q_delete_goal [.vint g] =
      if db.goals.any (fun r => r.goal_id == g) &&
         (db.tasks.any (fun r => r.goal_id == g) || db.feedbacks.any (fun r => r.goal_id == g)) then
        .error "ForeignKeyViolation: goal is referenced"
      else .ok ({ db with goals := db.goals.filter fun r => !(r.goal_id == g) }, none) := by
  unfold sqlExec
  rw [parse_delete_goal]
  rfl

/-- An already-approved task row is a fixed point of the approval update. -/
theorem approve_map_fixed (t : TaskRow) (tid : Int) (h : t.is_approved = true) :
    (if t.task_id == tid then { t with is_approved := true } else t) = t := by
  obtain ⟨a, b, d, e⟩ := t
  simp only [TaskRow.is_approved] at h
  subst h
  split <;> rfl

/-- C8 (confirmed): under a healthy connection, `approve_task` always
returns `True` (in particular on an already-approved task), after the call
every task row with the given id has its approval flag set, and no write
operation ever turns an approved task row back to unapproved: every
approved row survives any of the six write calls unchanged. -/
theorem C8_approval_one_directional (c : Conn) (hF : c.faults = Faults.clear) :
    (∀ task_id : Int, (PMSBackend.approve_task ⟨some c⟩ task_id).1 = .ret (.pybool true)) ∧
    (∀ (task_id : Int) (db2 : DB),
       (PMSBackend.approve_task ⟨some c⟩ task_id).2 = ⟨some ⟨db2, c.faults⟩⟩ →
       ∀ t ∈ db2.tasks, t.task_id = task_id → t.is_approved = true) ∧
    (∀ (op : WriteOp) (db2 : DB),
       (applyWrite op ⟨some c⟩).2 = ⟨some ⟨db2, c.faults⟩⟩ →
       ∀ t ∈ c.db.tasks, t.is_approved = true → t ∈ db2.tasks) := by
  have happrove : ∀ task_id : Int,
      PMSBackend.approve_task ⟨some c⟩ task_id =
        (.ret (.pybool true),
         ⟨some ⟨{ c.db with tasks := c.db.tasks.map fun r =>
                    if r.task_id == task_id then { r with is_approved := true } else r }, c.faults⟩⟩) :=
    fun task_id => PMSBackend.run_query_write_ok c _ _ _ none hF (sqlExec_approve_task c.db task_id)
  refine ⟨fun task_id => by rw [happrove task_id], fun task_id db2 h2 t ht htid => ?_, ?_⟩
  · rw [happrove task_id] at h2
    have hdb : ({ c.db with tasks := c.db.tasks.map fun r =>
        if r.task_id == task_id then { r with is_approved := true } else r } : DB) = db2 := by
      have := congrArg (fun be : PMSBackend => be.conn) h2
      simpa using this
    rw [← hdb] at ht
    simp only [List.mem_map] at ht
    obtain ⟨r, _, hr⟩ := ht
    by_cases hc : (r.task_id == task_id) = true
    · rw [hc] at hr
      simp at hr
      rw [← hr]
    · rw [Bool.not_eq_true] at hc
      rw [hc] at hr
      simp at hr
      subst hr
      rw [htid] at hc
      simp at hc
  · intro op db2 h2 t ht hap
    have hdb : ∀ dbx : DB, (applyWrite op ⟨some c⟩).2 = ⟨some ⟨dbx, c.faults⟩⟩ → dbx = db2 := by
      intro dbx hx
      rw [hx] at h2
      have := congrArg (fun be : PMSBackend => be.conn) h2
      simpa using this
    cases op with
    | createGoal e m d dd s =>
      by_cases hA : (c.db.employees.any fun r => r.employee_id == e) = true
      · have hE := sqlExec_insert_goal c.db e m d dd s
        rw [if_pos hA] at hE
        have hw := PMSBackend.run_query_write_ok c _ _ _ none hF hE
        have := hdb _ (by rw [show applyWrite (.createGoal e m d dd s) ⟨some c⟩ =
          PMSBackend.create_goal ⟨some c⟩ e m d dd s from rfl, PMSBackend.create_goal, hw])
        rw [← this]
        exact ht
      · have hE := sqlExec_insert_goal c.db e m d dd s
        rw [if_neg hA] at hE
        have hw := PMSBackend.run_query_sql_error c _ _ _ false hF hE
        have := hdb c.db (by rw [show applyWrite (.createGoal e m d dd s) ⟨some c⟩ =
          PMSBackend.create_goal ⟨some c⟩ e m d dd s from rfl, PMSBackend.create_goal, hw])
        rw [← this]
        exact ht
    | createTask g d =>
      by_cases hA : (c.db.goals.any fun r => r.goal_id == g) = true
      · have hE := sqlExec_insert_task c.db g d
        rw [if_pos hA] at hE
        have hw := PMSBackend.run_query_write_ok c _ _ _ none hF hE
        have := hdb _ (by rw [show applyWrite (.createTask g d) ⟨some c⟩ =
          PMSBackend.create_task ⟨some c⟩ g d from rfl, PMSBackend.create_task, hw])
        rw [← this]
        exact List.mem_append_left _ ht
      · have hE := sqlExec_insert_task c.db g d
        rw [if_neg hA] at hE
        have hw := PMSBackend.run_query_sql_error c _ _ _ false hF hE
        have := hdb c.db (by rw [show applyWrite (.createTask g d) ⟨some c⟩ =
          PMSBackend.create_task ⟨some c⟩ g d from rfl, PMSBackend.create_task, hw])
        rw [← this]
        exact ht
    | createFeedback g m ct =>
      by_cases hA : (c.db.goals.any fun r => r.goal_id == g) = true
      · have hE := sqlExec_insert_feedback c.db g m ct
        rw [if_pos hA] at hE
        have hw := PMSBackend.run_query_write_ok c _ _ _ none hF hE
        have := hdb _ (by rw [show applyWrite (.createFeedback g m ct) ⟨some c⟩ =
          PMSBackend.create_feedback ⟨some c⟩ g m ct from rfl, PMSBackend.create_feedback, hw])
        rw [← this]
        exact ht
      · have hE := sqlExec_insert_feedback c.db g m ct
        rw [if_neg hA] at hE
        have hw := PMSBackend.run_query_sql_error c _ _ _ false hF hE
        have := hdb c.db (by rw [show applyWrite (.createFeedback g m ct) ⟨some c⟩ =
          PMSBackend.create_feedback ⟨some c⟩ g m ct from rfl, PMSBackend.create_feedback, hw])
        rw [← this]
        exact ht
    | updateGoalStatus g s =>
      have hw := PMSBackend.run_query_write_ok c _ _ _ none hF (sqlExec_update_goal_status c.db s g)
      have := hdb _ (by rw [show applyWrite (.updateGoalStatus g s) ⟨some c⟩ =
        PMSBackend.update_goal_status ⟨some c⟩ g s from rfl, PMSBackend.update_goal_status, hw])
      rw [← this]
      exact ht
    | approveTask tid =>
      have := hdb _ (by rw [show applyWrite (.approveTask tid) ⟨some c⟩ =
        PMSBackend.approve_task ⟨some c⟩ tid from rfl, happrove tid])
      rw [← this]
      refine List.mem_map.mpr ⟨t, ht, ?_⟩
      exact approve_map_fixed t tid hap
    | deleteGoal g =>
      by_cases hA : (c.db.goals.any (fun r => r.goal_id == g) &&
          (c.db.tasks.any (fun r => r.goal_id == g) || c.db.feedbacks.any (fun r => r.goal_id == g))) = true
      · have hE := sqlExec_delete_goal c.db g
        rw [if_pos hA] at hE
        have hw := PMSBackend.run_query_sql_error c _ _ _ false hF hE
        have := hdb c.db (by rw [show applyWrite (.deleteGoal g) ⟨some c⟩ =
          PMSBackend.delete_goal ⟨some c⟩ g from rfl, PMSBackend.delete_goal, hw])
        rw [← this]
        exact ht
      · have hE := sqlExec_delete_goal c.db g
        rw [if_neg hA] at hE
        have hw := PMSBackend.run_query_write_ok c _ _ _ none hF hE
        have := hdb _ (by rw [show applyWrite (.deleteGoal g) ⟨some c⟩ =
          PMSBackend.delete_goal ⟨some c⟩ g from rfl, PMSBackend.delete_goal, hw])
        rw [← this]
        exact ht

/-- Witness for C8: approving the already-approved task 1 on the sample
store returns `True`. -/
theorem C8_witness :
    connSample.faults = Faults.clear ∧
    (PMSBackend.approve_task ⟨some connSample⟩ 1).1 = .ret (.pybool true) :=
  ⟨rfl, (C8_approval_one_directional connSample rfl).1 1⟩

/-- C5 (code bug): on a store with zero goals, the frontend's
COALESCE-wrapped average insight is the numeric 0, but the backend's
plain-AVG query yields SQL NULL, which `.iloc[0, 0]` passes through as the
insight value — not 0. The frontend's own comment ("Fix for the TypeError:
Using COALESCE to return 0 instead of NULL") records the NULL as a bug;
backend_fin.py keeps the unfixed query, so the claim fails on the backend. -/
theorem C5_backend_avg_null_on_empty_store :
    PMSBackend.get_business_insights ⟨some connEmptyStore⟩ =
      .ok ⟨.df ⟨["status", "total_goals"], []⟩, .vnull, .vstr "N/A", .vstr "N/A"⟩ ∧
    Frontend.get_business_insights (some connEmptyStore) =
      .ok ⟨.df ⟨["status", "total_goals"], []⟩, .vrat 0, .vstr "N/A", .vstr "N/A"⟩ ∧
    SqlVal.vnull ≠ SqlVal.vrat 0 :=
  ⟨rfl, rfl, by decide⟩

/-- C6 (confirmed): on a healthy connection, a store with zero tasks gives
the "N/A" sentinel as the most-productive-employee insight (whatever the
feedback table holds), and — independently — a store with zero feedback
rows gives "N/A" as the most-feedback-employee insight (whatever the task
table holds); in both modules, the insight gathering succeeds and the value
is the string "N/A", not an error, null, or empty string. -/
theorem C6_top_aggregates_na_on_empty (c : Conn) (hF : c.faults = Faults.clear) :
    (c.db.tasks = [] →
       ∃ iB iF : Insights,
         PMSBackend.get_business_insights ⟨some c⟩ = .ok iB ∧
         Frontend.get_business_insights (some c) = .ok iF ∧
         iB.most_productive_employee = .vstr "N/A" ∧
         iF.most_productive_employee = .vstr "N/A") ∧
    (c.db.feedbacks = [] →
       ∃ iB iF : Insights,
         PMSBackend.get_business_insights ⟨some c⟩ = .ok iB ∧
         Frontend.get_business_insights (some c) = .ok iF ∧
         iB.most_feedback_employee = .vstr "N/A" ∧
         iF.most_feedback_employee = .vstr "N/A") := by
  constructor
  · intro hT
    have h1 : taskEmployeeNames c.db = [] := by simp [taskEmployeeNames, hT]
    refine ⟨_, _, gbi_backend_eval c hF, gbi_frontend_eval c hF, ?_, ?_⟩ <;>
      simp [h1, topEmployeeVal, bestGroup, dedupFirst]
  · intro hFb
    have h2 : feedbackEmployeeNames c.db = [] := by simp [feedbackEmployeeNames, hFb]
    refine ⟨_, _, gbi_backend_eval c hF, gbi_frontend_eval c hF, ?_, ?_⟩ <;>
      simp [h2, topEmployeeVal, bestGroup, dedupFirst]

/-- A store with one goal, zero tasks, but a nonempty feedback table. -/
def dbNoTasks : DB :=
  ⟨[⟨1, "Alice"⟩], [⟨1, 1, 2, "Q1 targets", "2024-03-31", "In Progress"⟩],
   [], [⟨1, 1, 2, "keep going", 0⟩], 1⟩

def connNoTasks : Conn := ⟨dbNoTasks, Faults.clear⟩

/-- Witness for C6: the zero-task store (with a feedback row present)
yields "N/A" for the most-productive insight alone, and the empty store
yields "N/A" for the most-feedback insight — each under its own table's
emptiness only. -/
theorem C6_witness :
    connNoTasks.faults = Faults.clear ∧ connNoTasks.db.tasks = [] ∧
    (∃ iB iF : Insights,
       PMSBackend.get_business_insights ⟨some connNoTasks⟩ = .ok iB ∧
       Frontend.get_business_insights (some connNoTasks) = .ok iF ∧
       iB.most_productive_employee = .vstr "N/A" ∧
       iF.most_productive_employee = .vstr "N/A") ∧
    connEmptyStore.db.feedbacks = [] ∧
    (∃ iB iF : Insights,
       PMSBackend.get_business_insights ⟨some connEmptyStore⟩ = .ok iB ∧
       Frontend.get_business_insights (some connEmptyStore) = .ok iF ∧
       iB.most_feedback_employee = .vstr "N/A" ∧
       iF.most_feedback_employee = .vstr "N/A") :=
  ⟨rfl, rfl, (C6_top_aggregates_na_on_empty connNoTasks rfl).1 rfl, rfl,
   (C6_top_aggregates_na_on_empty connEmptyStore rfl).2 rfl⟩

/-! ## Module equivalence (C9) -/

/-- The two spellings of the feedback query execute identically. -/
theorem sqlExec_feedback_agree (db : DB) (p : List SqlVal) :
    sqlExec db q_get_feedback_b p = sqlExec db q_get_feedback_f p := by
  unfold sqlExec
  rw [parse_get_feedback_b, parse_get_feedback_f]

/-- The executor's behavior depends on the template only through the
statement's execution semantics. -/
theorem Frontend.run_query_congr (c : Conn) (q1 q2 : String) (p : List SqlVal) (f : Bool)
    (hE : sqlExec c.db q1 p = sqlExec c.db q2 p) :
    Frontend.run_query (some c) q1 p f = Frontend.run_query (some c) q2 p f := by
  simp only [Frontend.run_query]
  rw [hE]

/-- COALESCE makes no difference once at least one goal exists. -/
theorem coalesceAvg_eq_of_goals_nonempty (db : DB) (h : db.goals ≠ []) :
    coalesceAvgGoalsVal db = avgGoalsVal db := by
  unfold coalesceAvgGoalsVal avgGoalsVal
  cases hg : db.goals with
  | nil => exact absurd hg h
  | cons g gs => simp [hg, dedupFirst]

/-- C9 counterexample: on the very same datastore state (zero goals) the
two modules compute different average-goals insights — backend SQL NULL,
frontend 0 — so they are not behaviorally equivalent as claimed. -/
theorem C9_counterexample :
    (PMSBackend.get_business_insights ⟨some connEmptyStore⟩).toOption.map
        (fun i => i.avg_goals_per_employee) ≠
      (Frontend.get_business_insights (some connEmptyStore)).toOption.map
        (fun i => i.avg_goals_per_employee) := by
  decide

/-- C9 (corrected): the modules agree on the executor (every connection
state, template, parameter list and mode) and on every derived operation,
and `get_business_insights` agrees on every healthy state with at least one
goal; the single divergence is the average-goals insight of an empty goal
table, where the frontend's COALESCE yields 0 and the backend yields NULL. -/
theorem C9_modules_agree_except_empty_avg :
    (∀ (conn? : Option Conn) (q : String) (p : List SqlVal) (f : Bool),
       PMSBackend.run_query ⟨conn?⟩ q p f =
         ((Frontend.run_query conn? q p f).1, ⟨(Frontend.run_query conn? q p f).2⟩)) ∧
    (∀ (conn? : Option Conn) (e : Option Int),
       PMSBackend.get_goals ⟨conn?⟩ e =
         ((Frontend.get_goals conn? e).1, ⟨(Frontend.get_goals conn? e).2⟩)) ∧
    (∀ (conn? : Option Conn) (g : Int),
       PMSBackend.get_tasks ⟨conn?⟩ g =
         ((Frontend.get_tasks conn? g).1, ⟨(Frontend.get_tasks conn? g).2⟩)) ∧
    (∀ (conn? : Option Conn) (e : Int),
       PMSBackend.get_feedback ⟨conn?⟩ e =
         ((Frontend.get_feedback conn? e).1, ⟨(Frontend.get_feedback conn? e).2⟩)) ∧
    (∀ (conn? : Option Conn) (e m : Int) (d dd s : String),
       PMSBackend.create_goal ⟨conn?⟩ e m d dd s =
         ((Frontend.create_goal conn? e m d dd s).1, ⟨(Frontend.create_goal conn? e m d dd s).2⟩)) ∧
    (∀ (conn? : Option Conn) (g : Int) (d : String),
       PMSBackend.create_task ⟨conn?⟩ g d =
         ((Frontend.create_task conn? g d).1, ⟨(Frontend.create_task conn? g d).2⟩)) ∧
    (∀ (conn? : Option Conn) (g m : Int) (ct : String),
       PMSBackend.create_feedback ⟨conn?⟩ g m ct =
         ((Frontend.create_feedback conn? g m ct).1, ⟨(Frontend.create_feedback conn? g m ct).2⟩)) ∧
    (∀ (conn? : Option Conn) (g : Int) (s : String),
       PMSBackend.update_goal_status ⟨conn?⟩ g s =
         ((Frontend.update_goal_status conn? g s).1, ⟨(Frontend.update_goal_status conn? g s).2⟩)) ∧
    (∀ (conn? : Option Conn) (t : Int),
       PMSBackend.approve_task ⟨conn?⟩ t =
         ((Frontend.approve_task conn? t).1, ⟨(Frontend.approve_task conn? t).2⟩)) ∧
    (∀ (conn? : Option Conn) (g : Int),
       PMSBackend.delete_goal ⟨conn?⟩ g =
         ((Frontend.delete_goal conn? g).1, ⟨(Frontend.delete_goal conn? g).2⟩)) ∧
    (∀ c : Conn, c.faults = Faults.clear → c.db.goals ≠ [] →
       PMSBackend.get_business_insights ⟨some c⟩ = Frontend.get_business_insights (some c)) := by
  refine ⟨run_query_agree, ?_, ?_, ?_, ?_, ?_, ?_, ?_, ?_, ?_, ?_⟩
  · intro conn? e
    unfold PMSBackend.get_goals Frontend.get_goals
    cases h : pyTruthyInt e <;> simp only [h, if_true, if_false, Bool.false_eq_true] <;>
      exact run_query_agree conn? _ _ true
  · exact fun conn? g => run_query_agree conn? q_get_tasks [.vint g] true
  · intro conn? e
    cases conn? with
    | none => rfl
    | some c =>
      show PMSBackend.run_query ⟨some c⟩ q_get_feedback_b [.vint e] true = _
      rw [run_query_agree (some c) q_get_feedback_b [.vint e] true,
          Frontend.run_query_congr c q_get_feedback_b q_get_feedback_f [.vint e] true
            (sqlExec_feedback_agree c.db [.vint e])]
      rfl
  · exact fun conn? e m d dd s =>
      run_query_agree conn? q_create_goal [.vint e, .vint m, .vstr d, .vstr dd, .vstr s] false
  · exact fun conn? g d => run_query_agree conn? q_create_task [.vint g, .vstr d] false
  · exact fun conn? g m ct => run_query_agree conn? q_create_feedback [.vint g, .vint m, .vstr ct] false
  · exact fun conn? g s => run_query_agree conn? q_update_goal_status [.vstr s, .vint g] false
  · exact fun conn? t => run_query_agree conn? q_approve_task [.vint t] false
  · exact fun conn? g => run_query_agree conn? q_delete_goal [.vint g] false
  · intro c hF hg
    rw [gbi_backend_eval c hF, gbi_frontend_eval c hF, coalesceAvg_eq_of_goals_nonempty c.db hg]

/-- Witness for C9: on the populated sample store (two goals) the two
modules compute identical business insights. -/
theorem C9_witness :
    connSample.faults = Faults.clear ∧ connSample.db.goals ≠ [] ∧
    PMSBackend.get_business_insights ⟨some connSample⟩ =
      Frontend.get_business_insights (some connSample) :=
  ⟨rfl, by decide,
   C9_modules_agree_except_empty_avg.2.2.2.2.2.2.2.2.2.2 connSample rfl (by decide)⟩
